import Mathlib

/-!
Verification of the dquicken QUIC packet-decoding layer: a shallow embedding
of `src/varint.rs` and `src/packet.rs` into Lean, together with theorems
settling the specification claims about the varint codec, the frame-type
registry and the long-header decoder.

Bytes are modelled as natural numbers (a valid byte is `< 256`); buffers are
`List Nat`.  A Rust panic (out-of-bounds slice indexing, or reaching a
`todo!()` macro) is modelled as an `Except.error` outcome carrying the panic
kind, so that "the function panics on this input" is a provable, executable
statement of the model.
-/

namespace DQuicken

/-- Outcome of a diverging execution path of the Rust source: a bounds-check
panic raised by direct slice indexing (`buf[i]`, `&buf[a..b]`), or one of the
two explicit `todo!()` macros in `LongHeader::from_slice`. -/
inductive Panic where
  | indexOutOfBounds : Panic
  | todoShortHeader : Panic
  | todoVersionNegotiation : Panic
deriving DecidableEq

/-- Big-endian assembly of a byte list into a natural number; the model of
`u16::from_be_bytes`, `u32::from_be_bytes` and `u64::from_be_bytes` (which
cannot overflow: they consume exactly as many bytes as the target width). -/
def fromBeBytes (l : List Nat) : Nat :=
  l.foldl (fun acc b => acc * 256 + b) 0

/-- The `VarInt` enum of `src/varint.rs`: a decoded variable-length integer
tagged with its width class, plus the (dead) `Unknown` variant carrying the
computed length. -/
inductive VarInt where
  | U8 : Nat → VarInt
  | U16 : Nat → VarInt
  | U32 : Nat → VarInt
  | U64 : Nat → VarInt
  | Unknown : Nat → VarInt
deriving DecidableEq

/-- True exactly on the `Unknown` variant of `VarInt`. -/
def VarInt.isUnknown : VarInt → Bool
  | .Unknown _ => true
  | _ => false

/-- Shallow embedding of `VarInt::decode` (src/varint.rs).  Each direct index
`bytes[i]` of the Rust source is modelled by an explicit bounds test returning
the `indexOutOfBounds` panic outcome exactly when the Rust indexing would
panic; the accesses `bytes[1]`..`bytes[7]` of a width class are summarised by
one length test per class, since every failing access raises the same panic.
The Rust `match length` over the integer literals 1, 2, 4, 8 is rendered as
the equivalent sequential equality tests. -/
def VarInt.decode (bytes : List Nat) : Except Panic VarInt :=
  if bytes.length < 1 then .error .indexOutOfBounds else
  let v := bytes.getD 0 0
  let pre := v >>> 6
  let length := 1 <<< pre
  let v := v &&& 0x3f
  if length = 1 then .ok (.U8 v)
  else if length = 2 then
    if bytes.length < 2 then .error .indexOutOfBounds else
    .ok (.U16 (fromBeBytes [v, bytes.getD 1 0]))
  else if length = 4 then
    if bytes.length < 4 then .error .indexOutOfBounds else
    .ok (.U32 (fromBeBytes [v, bytes.getD 1 0, bytes.getD 2 0, bytes.getD 3 0]))
  else if length = 8 then
    if bytes.length < 8 then .error .indexOutOfBounds else
    .ok (.U64 (fromBeBytes [v, bytes.getD 1 0, bytes.getD 2 0, bytes.getD 3 0,
      bytes.getD 4 0, bytes.getD 5 0, bytes.getD 6 0, bytes.getD 7 0]))
  else .ok (.Unknown length)

/-- Failure kind of the (spec-level) varint encoder. -/
inductive EncodeError where
  | ValueTooLarge : EncodeError
deriving DecidableEq

/-- Modelled from the spec: `VarInt::encode` is absent from the source (only
`decode` exists in src/varint.rs).  Spec section 4.1: choose the minimal
length class that can represent the value (1 byte for values up to 2^6 - 1 =
63, 2 bytes up to 2^14 - 1 = 16383, 4 bytes up to 2^30 - 1 = 1073741823,
8 bytes up to 2^62 - 1 = 4611686018427387903; larger values fail with
`ValueTooLarge`), write the length-class bits into the top two bits of the
first output byte, OR in the value's corresponding bits, big-endian. -/
def VarInt.encode (v : Nat) : Except EncodeError (List Nat) :=
  if v ≤ 63 then .ok [v]
  else if v ≤ 16383 then .ok [0x40 ||| (v >>> 8), v &&& 0xff]
  else if v ≤ 1073741823 then
    .ok [0x80 ||| (v >>> 24), (v >>> 16) &&& 0xff, (v >>> 8) &&& 0xff, v &&& 0xff]
  else if v ≤ 4611686018427387903 then
    .ok [0xc0 ||| (v >>> 56), (v >>> 48) &&& 0xff, (v >>> 40) &&& 0xff,
      (v >>> 32) &&& 0xff, (v >>> 24) &&& 0xff, (v >>> 16) &&& 0xff,
      (v >>> 8) &&& 0xff, v &&& 0xff]
  else .error .ValueTooLarge

/-- The `FrameType` enum of `src/packet.rs`: a frame category, with the
original byte retained inline for the multi-value categories. -/
inductive FrameType where
  | PADDING : FrameType
  | PING : FrameType
  | ACK : Nat → FrameType
  | RESET_STREAM : FrameType
  | STOP_SENDING : FrameType
  | CRYPTO : FrameType
  | NEW_TOKEN : FrameType
  | STREAM : Nat → FrameType
  | MAX_DATA : FrameType
  | MAX_STREAM_DATA : FrameType
  | MAX_STREAMS : Nat → FrameType
  | DATA_BLOCKED : FrameType
  | STREAM_DATA_BLOCKED : FrameType
  | STREAMS_BLOCKED : Nat → FrameType
  | NEW_CONNECTION_ID : FrameType
  | RETIRE_CONNECTION_ID : FrameType
  | PATH_CHALLENGE : FrameType
  | PATH_RESPONSE : FrameType
  | CONNECTION_CLOSE : Nat → FrameType
  | HANDSHAKE_DONE : FrameType
  | UNKNOWN : Nat → FrameType
deriving DecidableEq

/-- Shallow embedding of `FrameType::from_u8` (src/packet.rs); the Rust match
with its ordered literal and range arms is rendered as the equivalent
sequential tests. -/
def FrameType.from_u8 (num : Nat) : FrameType :=
  if num = 0x00 then .PADDING
  else if num = 0x01 then .PING
  else if 0x02 ≤ num ∧ num ≤ 0x03 then .ACK num
  else if num = 0x04 then .RESET_STREAM
  else if num = 0x05 then .STOP_SENDING
  else if num = 0x06 then .CRYPTO
  else if num = 0x07 then .NEW_TOKEN
  else if 0x08 ≤ num ∧ num ≤ 0x0f then .STREAM num
  else if num = 0x10 then .MAX_DATA
  else if num = 0x11 then .MAX_STREAM_DATA
  else if 0x12 ≤ num ∧ num ≤ 0x13 then .MAX_STREAMS num
  else if num = 0x14 then .DATA_BLOCKED
  else if num = 0x15 then .STREAM_DATA_BLOCKED
  else if 0x16 ≤ num ∧ num ≤ 0x17 then .STREAMS_BLOCKED num
  else if num = 0x18 then .NEW_CONNECTION_ID
  else if num = 0x19 then .RETIRE_CONNECTION_ID
  else if num = 0x1a then .PATH_CHALLENGE
  else if num = 0x1b then .PATH_RESPONSE
  else if 0x1c ≤ num ∧ num ≤ 0x1d then .CONNECTION_CLOSE num
  else if num = 0x1e then .HANDSHAKE_DONE
  else .UNKNOWN num

/-- Shallow embedding of `FrameType::to_u8` (src/packet.rs). -/
def FrameType.to_u8 : FrameType → Nat
  | .PADDING => 0x00
  | .PING => 0x01
  | .ACK n => n
  | .RESET_STREAM => 0x04
  | .STOP_SENDING => 0x05
  | .CRYPTO => 0x06
  | .NEW_TOKEN => 0x07
  | .STREAM n => n
  | .MAX_DATA => 0x10
  | .MAX_STREAM_DATA => 0x11
  | .MAX_STREAMS n => n
  | .DATA_BLOCKED => 0x14
  | .STREAM_DATA_BLOCKED => 0x15
  | .STREAMS_BLOCKED n => n
  | .NEW_CONNECTION_ID => 0x18
  | .RETIRE_CONNECTION_ID => 0x19
  | .PATH_CHALLENGE => 0x1a
  | .PATH_RESPONSE => 0x1b
  | .CONNECTION_CLOSE n => n
  | .HANDSHAKE_DONE => 0x1e
  | .UNKNOWN n => n

/-- The `LongPacketType` enum of `src/packet.rs` (the source spells the first
variant `Inital`); the catch-all `Unknown` variant carries the raw value. -/
inductive LongPacketType where
  | Inital : LongPacketType
  | ZeroRTT : LongPacketType
  | Handshake : LongPacketType
  | Retry : LongPacketType
  | Unknown : Nat → LongPacketType
deriving DecidableEq

/-- Shallow embedding of `impl From<u8> for LongPacketType` (src/packet.rs). -/
def LongPacketType.ofU8 (value : Nat) : LongPacketType :=
  if value = 0x0 then .Inital
  else if value = 0x1 then .ZeroRTT
  else if value = 0x2 then .Handshake
  else if value = 0x3 then .Retry
  else .Unknown value

/-- The `LongHeader` struct of `src/packet.rs`.  The borrowed connection-ID
slices are modelled as byte lists. -/
structure LongHeader where
  fixed_bit : Bool
  ptype : LongPacketType
  reserved_bits : Nat
  packet_number_length : Nat
  version : Nat
  destination_connection_id_length : Nat
  destination_connection_id : List Nat
  source_connection_id_length : Nat
  source_connection_id : List Nat
  len : Nat
deriving DecidableEq

/-- Shallow embedding of `LongHeader::from_slice` (src/packet.rs).  Each
direct index `buf[i]` and range slice `&buf[a..b]` of the Rust source is
modelled by an explicit bounds test yielding the `indexOutOfBounds` panic
outcome exactly when the Rust indexing would panic (the four version-byte
accesses `buf[1]`..`buf[4]` are summarised by one length test, since each
failing access raises the same panic); the two `todo!()` macros become the
corresponding panic outcomes.  All tests appear in the source's evaluation
order: first byte, header form, version bytes, version-negotiation check,
DCID length byte, DCID slice, SCID length byte, SCID slice. -/
def LongHeader.from_slice (buf : List Nat) : Except Panic LongHeader :=
  if buf.length < 1 then .error .indexOutOfBounds else
  let first := buf.getD 0 0
  if first &&& 0x80 = 0x0 then .error .todoShortHeader else
  if buf.length < 5 then .error .indexOutOfBounds else
  let version := fromBeBytes [buf.getD 1 0, buf.getD 2 0, buf.getD 3 0, buf.getD 4 0]
  if version = 0 then .error .todoVersionNegotiation else
  if buf.length < 6 then .error .indexOutOfBounds else
  let dcid_len := buf.getD 5 0
  if buf.length < 6 + dcid_len then .error .indexOutOfBounds else
  let dcid := (buf.drop 6).take dcid_len
  if buf.length < 7 + dcid_len then .error .indexOutOfBounds else
  let scid_len := buf.getD (6 + dcid_len) 0
  if buf.length < 7 + dcid_len + scid_len then .error .indexOutOfBounds else
  let scid := (buf.drop (7 + dcid_len)).take scid_len
  .ok {
    fixed_bit := first &&& 0x40 == 0x40
    ptype := LongPacketType.ofU8 (first &&& 0x30)
    reserved_bits := first &&& 0x0c
    packet_number_length := (first &&& 0x03) + 1
    version := version
    destination_connection_id_length := dcid_len
    destination_connection_id := dcid
    source_connection_id_length := scid_len
    source_connection_id := scid
    len := 7 + dcid_len + scid_len }

/-! ### Arithmetic bridging lemmas -/

/-- Masking with `0xff` is reduction modulo 256. -/
theorem and_mod_256 (x : Nat) : x &&& 0xff = x % 256 := by
  have h := Nat.and_pow_two_sub_one_eq_mod x 8
  norm_num at h
  exact h

/-- Masking with `0x3f` is reduction modulo 64. -/
theorem and_mod_64 (x : Nat) : x &&& 0x3f = x % 64 := by
  have h := Nat.and_pow_two_sub_one_eq_mod x 6
  norm_num at h
  exact h

/-- Right shift by 6 is division by 64. -/
theorem shr6 (x : Nat) : x >>> 6 = x / 64 := by
  rw [Nat.shiftRight_eq_div_pow]

/-- Right shift by 8 is division by 256. -/
theorem shr8 (x : Nat) : x >>> 8 = x / 256 := by
  rw [Nat.shiftRight_eq_div_pow]

/-- Right shift by 16 is division by 65536. -/
theorem shr16 (x : Nat) : x >>> 16 = x / 65536 := by
  rw [Nat.shiftRight_eq_div_pow]

/-- Right shift by 24 is division by 16777216. -/
theorem shr24 (x : Nat) : x >>> 24 = x / 16777216 := by
  rw [Nat.shiftRight_eq_div_pow]

/-- Right shift by 32 is division by 4294967296. -/
theorem shr32 (x : Nat) : x >>> 32 = x / 4294967296 := by
  rw [Nat.shiftRight_eq_div_pow]

/-- Right shift by 40 is division by 1099511627776. -/
theorem shr40 (x : Nat) : x >>> 40 = x / 1099511627776 := by
  rw [Nat.shiftRight_eq_div_pow]

/-- Right shift by 48 is division by 281474976710656. -/
theorem shr48 (x : Nat) : x >>> 48 = x / 281474976710656 := by
  rw [Nat.shiftRight_eq_div_pow]

/-- Right shift by 56 is division by 72057594037927936. -/
theorem shr56 (x : Nat) : x >>> 56 = x / 72057594037927936 := by
  rw [Nat.shiftRight_eq_div_pow]

/-- ORing the 2-byte length-class marker into a 6-bit value is addition. -/
theorem or_64 : ∀ t, t < 64 → 0x40 ||| t = 64 + t := by decide

/-- ORing the 4-byte length-class marker into a 6-bit value is addition. -/
theorem or_128 : ∀ t, t < 64 → 0x80 ||| t = 128 + t := by decide

/-- ORing the 8-byte length-class marker into a 6-bit value is addition. -/
theorem or_192 : ∀ t, t < 64 → 0xc0 ||| t = 192 + t := by decide

/-! ### Varint round-trip, one lemma per length class -/

/-- One-byte class round trip. -/
theorem decode_encode_one (v : Nat) (h : v ≤ 63) :
    VarInt.encode v = .ok [v] ∧ VarInt.decode [v] = .ok (.U8 v) := by
  constructor
  · unfold VarInt.encode
    rw [if_pos h]
  · have hpre : v >>> 6 = 0 := by rw [shr6]; omega
    simp [VarInt.decode, hpre, and_mod_64]
    omega

/-- Two-byte class round trip. -/
theorem decode_encode_two (v : Nat) (h1 : 63 < v) (h2 : v ≤ 16383) :
    VarInt.encode v = .ok [0x40 ||| (v >>> 8), v &&& 0xff] ∧
    VarInt.decode [0x40 ||| (v >>> 8), v &&& 0xff] = .ok (.U16 v) := by
  have htl : v / 256 < 64 := by omega
  constructor
  · unfold VarInt.encode
    rw [if_neg (by omega), if_pos h2]
  · rw [shr8, or_64 _ htl]
    have hpre : (64 + v / 256) >>> 6 = 1 := by rw [shr6]; omega
    simp [VarInt.decode, hpre, and_mod_64, and_mod_256, fromBeBytes]
    omega

/-- Four-byte class round trip. -/
theorem decode_encode_four (v : Nat) (h1 : 16383 < v) (h2 : v ≤ 1073741823) :
    VarInt.encode v = .ok [0x80 ||| (v >>> 24), (v >>> 16) &&& 0xff,
      (v >>> 8) &&& 0xff, v &&& 0xff] ∧
    VarInt.decode [0x80 ||| (v >>> 24), (v >>> 16) &&& 0xff,
      (v >>> 8) &&& 0xff, v &&& 0xff] = .ok (.U32 v) := by
  have htl : v / 16777216 < 64 := by omega
  constructor
  · unfold VarInt.encode
    rw [if_neg (by omega), if_neg (by omega), if_pos h2]
  · rw [shr24, shr16, shr8, or_128 _ htl]
    have hpre : (128 + v / 16777216) >>> 6 = 2 := by rw [shr6]; omega
    simp [VarInt.decode, hpre, and_mod_64, and_mod_256, fromBeBytes]
    omega

/-- Eight-byte class round trip. -/
theorem decode_encode_eight (v : Nat) (h1 : 1073741823 < v)
    (h2 : v ≤ 4611686018427387903) :
    VarInt.encode v = .ok [0xc0 ||| (v >>> 56), (v >>> 48) &&& 0xff,
      (v >>> 40) &&& 0xff, (v >>> 32) &&& 0xff, (v >>> 24) &&& 0xff,
      (v >>> 16) &&& 0xff, (v >>> 8) &&& 0xff, v &&& 0xff] ∧
    VarInt.decode [0xc0 ||| (v >>> 56), (v >>> 48) &&& 0xff,
      (v >>> 40) &&& 0xff, (v >>> 32) &&& 0xff, (v >>> 24) &&& 0xff,
      (v >>> 16) &&& 0xff, (v >>> 8) &&& 0xff, v &&& 0xff] = .ok (.U64 v) := by
  have htl : v / 72057594037927936 < 64 := by omega
  constructor
  · unfold VarInt.encode
    rw [if_neg (by omega), if_neg (by omega), if_neg (by omega), if_pos h2]
  · rw [shr56, shr48, shr40, shr32, shr24, shr16, shr8, or_192 _ htl]
    have hpre : (192 + v / 72057594037927936) >>> 6 = 3 := by rw [shr6]; omega
    simp [VarInt.decode, hpre, and_mod_64, and_mod_256, fromBeBytes]
    omega

/-! ### List decomposition helper -/

/-- A contiguous segment obtained by `drop`/`take` decomposes the list. -/
theorem take_drop_decomp {α : Type} (l : List α) (a n : Nat) :
    l = l.take a ++ ((l.drop a).take n ++ l.drop (a + n)) := by
  have h1 : l = l.take a ++ l.drop a := (List.take_append_drop a l).symm
  have h2 : l.drop a = (l.drop a).take n ++ (l.drop a).drop n :=
    (List.take_append_drop n (l.drop a)).symm
  rw [List.drop_drop] at h2
  calc l = l.take a ++ l.drop a := h1
    _ = l.take a ++ ((l.drop a).take n ++ l.drop (a + n)) := by rw [← h2]

/-! ### Claim theorems -/

/-- C1: the claim asserts that `VarInt::decode` and `LongHeader::from_slice`
return truncation errors (`TruncatedInput` / `EmptyBuffer` / `TruncatedHeader`)
on short input and never panic.  The source has no error-returning API at all:
on the empty buffer, on a varint whose 2-bit prefix declares more bytes than
are present, and on a long header truncated anywhere, the direct slice
indexing raises an index-out-of-bounds panic.  This theorem evaluates the
model at such failing inputs: the result is the panic outcome, not a
returned error value. -/
theorem c1_truncation_panics :
    VarInt.decode [] = .error .indexOutOfBounds ∧
    VarInt.decode [0x7f] = .error .indexOutOfBounds ∧
    LongHeader.from_slice [] = .error .indexOutOfBounds ∧
    LongHeader.from_slice [0xc3, 0x00, 0x00, 0x00, 0x01, 0x08, 0x01] =
      .error .indexOutOfBounds :=
  ⟨rfl, rfl, rfl, rfl⟩

/-- C2: the claim asserts that a DCID-length byte of 21 fails with
`ConnectionIdTooLong`.  No such check exists in `LongHeader::from_slice`: a
buffer with DCID-length byte 21 and 21 connection-ID bytes parses
successfully, returning a header with a 21-byte DCID, contradicting the
source's own doc comment ("this value MUST NOT exceed 20 bytes ... MUST drop
the packet"). -/
theorem c2_no_cid_length_check :
    LongHeader.from_slice [0xc3, 0x00, 0x00, 0x00, 0x01, 0x15,
        0xaa, 0xaa, 0xaa, 0xaa, 0xaa, 0xaa, 0xaa, 0xaa, 0xaa, 0xaa, 0xaa,
        0xaa, 0xaa, 0xaa, 0xaa, 0xaa, 0xaa, 0xaa, 0xaa, 0xaa, 0xaa, 0x00] =
      .ok { fixed_bit := true, ptype := .Inital, reserved_bits := 0,
            packet_number_length := 4, version := 1,
            destination_connection_id_length := 21,
            destination_connection_id := [0xaa, 0xaa, 0xaa, 0xaa, 0xaa, 0xaa,
              0xaa, 0xaa, 0xaa, 0xaa, 0xaa, 0xaa, 0xaa, 0xaa, 0xaa, 0xaa,
              0xaa, 0xaa, 0xaa, 0xaa, 0xaa],
            source_connection_id_length := 0, source_connection_id := [],
            len := 28 } := rfl

/-- C3: the claim asserts `ptype = LongPacketType((byte0 & 0x30) >> 4)` and
that an `Unknown` packet type is never produced.  The source applies
`LongPacketType::from` to the unshifted mask `byte0 & 0x30`: for a
Handshake-type first byte `0xe3` the claimed mapping gives `Handshake`, but
the decoder stores `Unknown(0x20)`. -/
theorem c3_ptype_unshifted :
    LongPacketType.ofU8 ((0xe3 &&& 0x30) >>> 4) = .Handshake ∧
    LongHeader.from_slice [0xe3, 0x00, 0x00, 0x00, 0x01, 0x00, 0x00] =
      .ok { fixed_bit := true, ptype := .Unknown 0x20, reserved_bits := 0,
            packet_number_length := 4, version := 1,
            destination_connection_id_length := 0,
            destination_connection_id := [],
            source_connection_id_length := 0, source_connection_id := [],
            len := 7 } :=
  ⟨rfl, rfl⟩

/-- C5: the claim asserts that a zero version field dispatches to the
Version-Negotiation decoder without panicking.  The decoder does detect
`version == 0` before any type-specific parsing (even when later header
fields are absent or present), but the branch is `todo!()`, which panics:
no Version-Negotiation decoder exists. -/
theorem c5_version_negotiation_todo_panics :
    LongHeader.from_slice [0xc0, 0x00, 0x00, 0x00, 0x00] =
      .error .todoVersionNegotiation ∧
    LongHeader.from_slice [0xc0, 0x00, 0x00, 0x00, 0x00, 0x05, 0x01, 0x02] =
      .error .todoVersionNegotiation :=
  ⟨rfl, rfl⟩

set_option maxHeartbeats 1600000 in
/-- C8: the 15-byte sample buffer `[0xc3, 00 00 00 01, 08, <8 DCID bytes>,
00]` decodes successfully, for arbitrary DCID byte values, to a header with
`ptype = Inital`, `version = 1`, DCID length 8 and SCID length 0. -/
theorem c8_end_to_end_sample (d1 d2 d3 d4 d5 d6 d7 d8 : Nat) :
    LongHeader.from_slice
        [0xc3, 0x00, 0x00, 0x00, 0x01, 0x08, d1, d2, d3, d4, d5, d6, d7, d8,
          0x00] =
      .ok { fixed_bit := true, ptype := .Inital, reserved_bits := 0,
            packet_number_length := 4, version := 1,
            destination_connection_id_length := 8,
            destination_connection_id := [d1, d2, d3, d4, d5, d6, d7, d8],
            source_connection_id_length := 0, source_connection_id := [],
            len := 15 } := by
  simp [LongHeader.from_slice, fromBeBytes]
  decide

/-- C9: the claim asserts that a set form bit with a clear fixed bit is
treated as a protocol error.  The source computes `fixed_bit` and stores it
without any check: first byte `0x80` yields a successfully parsed header with
`fixed_bit = false`, contradicting the source's own doc comment ("Packets
containing a zero value for this bit are not valid packets ... MUST be
discarded"). -/
theorem c9_fixed_bit_violation_accepted :
    LongHeader.from_slice [0x80, 0x00, 0x00, 0x00, 0x01, 0x00, 0x00] =
      .ok { fixed_bit := false, ptype := .Inital, reserved_bits := 0,
            packet_number_length := 1, version := 1,
            destination_connection_id_length := 0,
            destination_connection_id := [],
            source_connection_id_length := 0, source_connection_id := [],
            len := 7 } := rfl

/-- C4 counterexample: the claim asserts `from_u8(to_u8(f)) == f` for every
constructible `FrameType`; it fails at the constructible value `ACK 0`, whose
carried byte 0 maps back to `PADDING`. -/
theorem c4_ack_zero_counterexample :
    FrameType.from_u8 (FrameType.to_u8 (.ACK 0)) ≠ .ACK 0 := by decide

/-- C4 (amended): `to_u8 (from_u8 b) = b` for every byte `b` (indeed every
natural), and `from_u8 (to_u8 f) = f` for every `f` in the image of
`from_u8` — equivalently, every value whose carried byte lies in its
category's range; the ACK bytes 0x02 and 0x03 keep their ECN bit distinctly
through the round trip. -/
theorem c4_round_trip :
    (∀ b : Nat, FrameType.to_u8 (FrameType.from_u8 b) = b) ∧
    (∀ f : FrameType, (∃ b, FrameType.from_u8 b = f) →
      FrameType.from_u8 (FrameType.to_u8 f) = f) ∧
    FrameType.from_u8 0x02 = .ACK 0x02 ∧ FrameType.from_u8 0x03 = .ACK 0x03 := by
  have h1 : ∀ b : Nat, FrameType.to_u8 (FrameType.from_u8 b) = b := by
    intro b
    rcases Nat.lt_or_ge b 0x1f with hb | hb
    · exact (by decide : ∀ c, c < 0x1f → FrameType.to_u8 (FrameType.from_u8 c) = c) b hb
    · have hunk : FrameType.from_u8 b = .UNKNOWN b := by
        unfold FrameType.from_u8
        repeat rw [if_neg (by omega)]
      rw [hunk]
      rfl
  refine ⟨h1, ?_, by decide, by decide⟩
  rintro f ⟨b, rfl⟩
  rw [h1 b]

/-- C4 witness: the amended round trip evaluated at byte 0x0a and at the
in-range value `STREAM 0x0a`. -/
theorem c4_round_trip_witness :
    FrameType.to_u8 (FrameType.from_u8 0x0a) = 0x0a ∧
    FrameType.from_u8 (FrameType.to_u8 (.STREAM 0x0a)) = .STREAM 0x0a :=
  ⟨c4_round_trip.1 0x0a, c4_round_trip.2.1 (.STREAM 0x0a) ⟨0x0a, by decide⟩⟩

/-- C6: varint round trip against the spec-modelled encoder.  For every
62-bit-representable value the encoder picks exactly the minimal length class
(1, 2, 4 or 8 bytes, with class boundaries 2^6 - 1, 2^14 - 1, 2^30 - 1,
2^62 - 1), larger values fail with `ValueTooLarge`, the source's `decode`
recovers the value from the encoding, and the RFC 9000 reference bytes
`c2 19 7c 5e ff 14 e8 8c` decode to 151288809941952652. -/
theorem c6_varint_round_trip :
    (∀ v : Nat, v ≤ 63 → ∃ l, VarInt.encode v = .ok l ∧ l.length = 1 ∧
      VarInt.decode l = .ok (.U8 v)) ∧
    (∀ v : Nat, 63 < v → v ≤ 16383 → ∃ l, VarInt.encode v = .ok l ∧
      l.length = 2 ∧ VarInt.decode l = .ok (.U16 v)) ∧
    (∀ v : Nat, 16383 < v → v ≤ 1073741823 → ∃ l, VarInt.encode v = .ok l ∧
      l.length = 4 ∧ VarInt.decode l = .ok (.U32 v)) ∧
    (∀ v : Nat, 1073741823 < v → v ≤ 4611686018427387903 → ∃ l,
      VarInt.encode v = .ok l ∧ l.length = 8 ∧
      VarInt.decode l = .ok (.U64 v)) ∧
    (∀ v : Nat, 4611686018427387903 < v →
      VarInt.encode v = .error .ValueTooLarge) ∧
    VarInt.decode [0xc2, 0x19, 0x7c, 0x5e, 0xff, 0x14, 0xe8, 0x8c] =
      .ok (.U64 151288809941952652) := by
  refine ⟨?_, ?_, ?_, ?_, ?_, ?_⟩
  · intro v h
    exact ⟨[v], (decode_encode_one v h).1, rfl, (decode_encode_one v h).2⟩
  · intro v h1 h2
    exact ⟨_, (decode_encode_two v h1 h2).1, rfl, (decode_encode_two v h1 h2).2⟩
  · intro v h1 h2
    exact ⟨_, (decode_encode_four v h1 h2).1, rfl,
      (decode_encode_four v h1 h2).2⟩
  · intro v h1 h2
    exact ⟨_, (decode_encode_eight v h1 h2).1, rfl,
      (decode_encode_eight v h1 h2).2⟩
  · intro v h
    unfold VarInt.encode
    repeat rw [if_neg (by omega)]
  · simp [VarInt.decode, fromBeBytes]
    decide

/-- C6 witness: the round trip evaluated at 63 (largest 1-byte value), at
16384 (smallest 4-byte value) and at 2^62 - 1 (largest representable value),
and the overflow failure at 2^62. -/
theorem c6_varint_round_trip_witness :
    (∃ l, VarInt.encode 63 = .ok l ∧ l.length = 1 ∧
      VarInt.decode l = .ok (.U8 63)) ∧
    (∃ l, VarInt.encode 16384 = .ok l ∧ l.length = 4 ∧
      VarInt.decode l = .ok (.U32 16384)) ∧
    (∃ l, VarInt.encode 4611686018427387903 = .ok l ∧ l.length = 8 ∧
      VarInt.decode l = .ok (.U64 4611686018427387903)) ∧
    VarInt.encode 4611686018427387904 = .error .ValueTooLarge :=
  ⟨c6_varint_round_trip.1 63 (by omega),
   c6_varint_round_trip.2.2.1 16384 (by omega) (by omega),
   c6_varint_round_trip.2.2.2.1 4611686018427387903 (by omega) (by omega),
   c6_varint_round_trip.2.2.2.2.1 4611686018427387904 (by omega)⟩

/-- C7: whenever `VarInt::decode` returns a value on a buffer of bytes, that
value is never the `Unknown` variant: the 2-bit prefix of a byte always
yields a length in {1, 2, 4, 8}, so the catch-all arm is unreachable. -/
theorem c7_decode_never_unknown :
    ∀ (bytes : List Nat) (r : VarInt), (∀ b ∈ bytes, b < 256) →
      VarInt.decode bytes = .ok r → r.isUnknown = false := by
  intro bytes r hv hok
  match bytes, hv with
  | [], _ => simp [VarInt.decode] at hok
  | b0 :: rest, hv =>
    have hb : b0 < 256 := hv b0 (List.mem_cons_self _ _)
    have hdiv : b0 >>> 6 = b0 / 64 := shr6 b0
    have h4 : b0 / 64 = 0 ∨ b0 / 64 = 1 ∨ b0 / 64 = 2 ∨ b0 / 64 = 3 := by
      omega
    rcases h4 with h | h | h | h
    · simp [VarInt.decode, hdiv, h] at hok
      subst hok
      rfl
    · simp [VarInt.decode, hdiv, h] at hok
      split at hok
      · simp at hok
      · simp only [Except.ok.injEq] at hok
        subst hok
        rfl
    · simp [VarInt.decode, hdiv, h] at hok
      split at hok
      · simp at hok
      · simp only [Except.ok.injEq] at hok
        subst hok
        rfl
    · simp [VarInt.decode, hdiv, h] at hok
      split at hok
      · simp at hok
      · simp only [Except.ok.injEq] at hok
        subst hok
        rfl

/-- C7 witness: the theorem applied to the 1-byte buffer `[0x00]`, whose
decode is `U8 0`. -/
theorem c7_decode_never_unknown_witness :
    VarInt.isUnknown (VarInt.U8 0) = false :=
  c7_decode_never_unknown [0x00] (.U8 0) (by decide) rfl

/-- C10: every successfully decoded header is internally consistent — the
DCID and SCID have exactly the recorded lengths, both are contiguous
segments of the input buffer, and the consumed length is 7 plus the two
connection-ID lengths. -/
theorem c10_header_consistency :
    ∀ (buf : List Nat) (h : LongHeader), LongHeader.from_slice buf = .ok h →
      h.destination_connection_id.length =
        h.destination_connection_id_length ∧
      h.source_connection_id.length = h.source_connection_id_length ∧
      (∃ u w, buf = u ++ h.destination_connection_id ++ w) ∧
      (∃ u w, buf = u ++ h.source_connection_id ++ w) ∧
      h.len = 7 + h.destination_connection_id_length +
        h.source_connection_id_length := by
  intro buf h hok
  simp only [LongHeader.from_slice] at hok
  split_ifs at hok with h1 h2 h3 h4 h5 h6 h7 h8
  rw [Except.ok.injEq] at hok
  subst hok
  refine ⟨?_, ?_, ?_, ?_, rfl⟩
  · simp only [List.length_take, List.length_drop]
    omega
  · simp only [List.length_take, List.length_drop]
    omega
  · exact ⟨buf.take 6, buf.drop (6 + buf.getD 5 0), by
      rw [List.append_assoc]
      exact take_drop_decomp buf 6 (buf.getD 5 0)⟩
  · exact ⟨buf.take (7 + buf.getD 5 0),
      buf.drop (7 + buf.getD 5 0 + buf.getD (6 + buf.getD 5 0) 0), by
      rw [List.append_assoc]
      exact take_drop_decomp buf (7 + buf.getD 5 0)
        (buf.getD (6 + buf.getD 5 0) 0)⟩

/-- C10 witness: the consistency facts instantiated on an 8-byte buffer with
a 1-byte DCID and an empty SCID. -/
theorem c10_header_consistency_witness :
    ([0xab] : List Nat).length = 1 ∧ ([] : List Nat).length = 0 ∧
    (∃ u w, [0xc1, 0x00, 0x00, 0x00, 0x01, 0x01, 0xab, 0x00] =
      u ++ [0xab] ++ w) ∧
    (∃ u w, ([0xc1, 0x00, 0x00, 0x00, 0x01, 0x01, 0xab, 0x00] : List Nat) =
      u ++ [] ++ w) ∧
    (8 : Nat) = 7 + 1 + 0 :=
  c10_header_consistency [0xc1, 0x00, 0x00, 0x00, 0x01, 0x01, 0xab, 0x00]
    { fixed_bit := true, ptype := .Inital, reserved_bits := 0,
      packet_number_length := 2, version := 1,
      destination_connection_id_length := 1,
      destination_connection_id := [0xab],
      source_connection_id_length := 0, source_connection_id := [],
      len := 8 } rfl

end DQuicken
